import Mathlib

/-!
Verification of the oncall-agent log-analysis pipeline.

This file gives a shallow embedding, in Lean 4, of the core pipeline of the
repository:

* `app/services/llm_service.py` — response parsing (`_parse_llm_response`):
  trim, fence-strip, strict JSON parse, default backfill, fallback synthesis;
* `app/services/analysis_service.py` — orchestration (`analyze_logs`),
  statistics (`_calculate_statistics`), finding materialization
  (`_convert_findings`), empty-result short circuit
  (`_create_empty_response`);
* `app/integrations/gcp/logging_client.py` — filter construction
  (`fetch_logs`, `fetch_error_logs`) and raw-entry normalization;
* `app/schemas/analysis.py` — the pydantic schemas (`AnalysisFinding`,
  `LogStatistics`, `LogAnalysisResponse`).

Python strings are modelled as lists of characters (`PyStr`), which matches
Python semantics of slicing and indexing by code point.  Python `None` is
`Option.none`; a Python `dict` is an insertion-ordered association list.
The external JSON decoder `json.loads` is a parameter
(`json_loads : PyStr → Option Json`) since it is library code outside the
repository; `none` models `json.JSONDecodeError`.
-/

/-- Python strings, as sequences of code points. -/
abbrev PyStr := List Char

/-- The default character class stripped by Python `str.strip()`. -/
def pyWs (c : Char) : Bool := c.isWhitespace

/-- Python `s.strip()`: remove leading and trailing whitespace. -/
def pyStrip (s : PyStr) : PyStr :=
  ((s.dropWhile pyWs).reverse.dropWhile pyWs).reverse

/-- Python `s.startswith(p)`. -/
def pyStartsWith (s p : PyStr) : Bool := p.isPrefixOf s

/-- Python `s.endswith(p)`. -/
def pyEndsWith (s p : PyStr) : Bool := p.isSuffixOf s

/-- Python `s[n:]`. -/
def pyDropLeft (s : PyStr) (n : Nat) : PyStr := s.drop n

/-- Python `s[:-n]` (for `n ≤ len(s)`; removes the last `n` characters). -/
def pyDropRight (s : PyStr) (n : Nat) : PyStr := (s.reverse.drop n).reverse

/-- Python `s[:n]`. -/
def pyTake (s : PyStr) (n : Nat) : PyStr := s.take n

/-- JSON values as produced by `json.loads`: objects are insertion-ordered
association lists.  Numbers are modelled as integers, which covers every
numeric field the pipeline inspects (`affected_logs_count`). -/
inductive Json where
  | null
  | bool (b : Bool)
  | num (n : Int)
  | str (s : String)
  | arr (elems : List Json)
  | obj (fields : List (String × Json))

/-- Python `d.get(k, default)` on a JSON object. -/
def dictGet (d : List (String × Json)) (k : String) (dflt : Json) : Json :=
  match d.find? (fun p => p.1 == k) with
  | some p => p.2
  | none => dflt

/-- Python `k in d` on a JSON object. -/
def hasKey (d : List (String × Json)) (k : String) : Bool :=
  d.any (fun p => p.1 == k)

/-- Python `if k not in d: d[k] = v` — append the pair when the key is
missing (a fresh key is appended at the end of an insertion-ordered dict). -/
def setIfMissing (d : List (String × Json)) (k : String) (v : Json) :
    List (String × Json) :=
  if hasKey d k then d else d ++ [(k, v)]

/-- The fence-stripping front end of `LLMService._parse_llm_response`
(llm_service.py lines 221–230): trim, strip a leading three-backtick marker
tagged `json`, then a plain leading marker, then a trailing marker, trim
again.  The slice widths 7 and 3 are the code's literal `response[7:]`,
`response[3:]` and `response[:-3]`. -/
def extract_json (response : PyStr) : PyStr :=
  let r1 := pyStrip response
  let r2 := if pyStartsWith r1 (("```json").data) then pyDropLeft r1 7 else r1
  let r3 := if pyStartsWith r2 (("```").data) then pyDropLeft r2 3 else r2
  let r4 := if pyEndsWith r3 (("```").data) then pyDropRight r3 3 else r3
  pyStrip r4

/-- The backfill of the four required top-level keys
(llm_service.py lines 236–243). -/
def backfill_defaults (d : List (String × Json)) : List (String × Json) :=
  setIfMissing
    (setIfMissing
      (setIfMissing
        (setIfMissing d ("summary") (Json.str ("Analysis completed")))
        ("findings") (Json.arr []))
      ("recommendations") (Json.arr []))
    ("most_common_errors") (Json.arr [])

/-- The fallback structure returned when `json.loads` raises
(llm_service.py lines 252–264).  Its `description` is built from the string
the code holds at that point — the trimmed, fence-stripped `response`
variable — truncated to 1000 characters. -/
def fallback_response (cleaned : PyStr) : List (String × Json) :=
  [(("summary"), Json.str ("Analysis completed but response parsing failed")),
   (("findings"), Json.arr [Json.obj
      [(("severity"), Json.str ("info")),
       (("title"), Json.str ("Analysis Result")),
       (("description"), Json.str (String.mk (pyTake cleaned 1000))),
       (("affected_logs_count"), Json.num 0),
       (("suggested_fix"), Json.str ("Manual review required"))]]),
   (("recommendations"), Json.arr [Json.str ("Review logs manually")]),
   (("most_common_errors"), Json.arr [])]

/-- `LLMService._parse_llm_response`.  `json_loads` abstracts the Python
standard-library decoder; `none` models `json.JSONDecodeError`.  The result
`none` models an exception escaping the method: when `json.loads` yields a
non-dict value, the subsequent key insertion (`result["summary"] = ...` or
`"summary" not in result`) raises a `TypeError` that the
`except json.JSONDecodeError` clause does not catch. -/
def parse_llm_response (json_loads : PyStr → Option Json) (response : PyStr) :
    Option (List (String × Json)) :=
  let cleaned := extract_json response
  match json_loads cleaned with
  | some (Json.obj fields) => some (backfill_defaults fields)
  | some _ => none
  | none => some (fallback_response cleaned)

/-- Project the `summary` key of a parse result as a string, used to compare
parse results observably. -/
def resultSummary (r : Option (List (String × Json))) : Option String :=
  match r with
  | some d =>
    match dictGet d ("summary") Json.null with
    | Json.str s => some s
    | _ => none
  | none => none

/-- Project the `description` of the first finding of a parse result. -/
def resultFirstDescription (r : Option (List (String × Json))) : Option String :=
  match r with
  | some d =>
    match dictGet d ("findings") Json.null with
    | Json.arr (Json.obj f :: _) =>
      match dictGet f ("description") Json.null with
      | Json.str s => some s
      | _ => none
    | _ => none
  | none => none

/-- The closed severity enum of `AnalysisFinding`
(schemas/analysis.py line 53). -/
inductive Severity where
  | critical
  | high
  | medium
  | low
  | info
deriving DecidableEq

/-- Pydantic validation of the `Literal["critical","high","medium","low","info"]`
field: only these exact strings are accepted, anything else (including a
non-string) is a `ValidationError`. -/
def validateSeverity (j : Json) : Option Severity :=
  match j with
  | Json.str s =>
    if s = ("critical") then some Severity.critical
    else if s = ("high") then some Severity.high
    else if s = ("medium") then some Severity.medium
    else if s = ("low") then some Severity.low
    else if s = ("info") then some Severity.info
    else none
  | _ => none

/-- Pydantic validation of a `str` field: a JSON string is accepted,
other JSON values are rejected. -/
def validateStr (j : Json) : Option String :=
  match j with
  | Json.str s => some s
  | _ => none

/-- Pydantic validation of an `int` field on a JSON number. -/
def validateInt (j : Json) : Option Int :=
  match j with
  | Json.num n => some n
  | _ => none

/-- Pydantic validation of a `str | None` field. -/
def validateOptStr (j : Json) : Option (Option String) :=
  match j with
  | Json.str s => some (some s)
  | Json.null => some none
  | _ => none

/-- `AnalysisFinding` (schemas/analysis.py lines 50–66). -/
structure AnalysisFinding where
  severity : Severity
  title : String
  description : String
  affected_logs_count : Int
  suggested_fix : String
  code_example : Option String
deriving DecidableEq

/-- Construction of one `AnalysisFinding` inside
`AnalysisService._convert_findings` (analysis_service.py lines 194–201):
each field is read with `dict.get` and its fixed default, then validated by
the pydantic model; `none` models the `ValidationError` caught by the
per-finding `except` clause. -/
def mkAnalysisFinding (d : List (String × Json)) : Option AnalysisFinding := do
  let sev ← validateSeverity (dictGet d ("severity") (Json.str ("info")))
  let title ← validateStr (dictGet d ("title") (Json.str ("Unknown issue")))
  let descr ← validateStr (dictGet d ("description") (Json.str ("")))
  let cnt ← validateInt (dictGet d ("affected_logs_count") (Json.num 0))
  let fix ← validateStr (dictGet d ("suggested_fix") (Json.str ("")))
  let code ← validateOptStr (dictGet d ("code_example") Json.null)
  pure ⟨sev, title, descr, cnt, fix, code⟩

/-- One loop iteration of `_convert_findings`: a non-dict element makes
`finding.get` raise an `AttributeError`, which the per-finding `except`
clause also catches, so it is skipped like a validation failure. -/
def convertOne (j : Json) : Option AnalysisFinding :=
  match j with
  | Json.obj d => mkAnalysisFinding d
  | _ => none

/-- `AnalysisService._convert_findings` (analysis_service.py lines 179–209):
appends each successfully validated finding, skips failures, keeps order. -/
def convert_findings (llm_findings : List Json) : List AnalysisFinding :=
  llm_findings.filterMap convertOne

/-- A raw entry as yielded by the GCP client library: every attribute is
optional; `payload` is a string, a dict, or something else (`Json.null`
standing for any non-str non-dict payload). -/
structure RawLogEntry where
  timestamp : Option String
  severity : Option String
  log_name : Option String
  payload : Option Json
  resource_type : Option String
  resource_labels : List (String × String)
  has_resource : Bool
  labels : List (String × String)
  insert_id : Option String

/-- A normalized entry dict as built by `GCPLoggingClient.fetch_logs`
(logging_client.py lines 128–137).  Every key is always present; a key
holding Python `None` is an `Option.none` value. -/
structure LogEntry where
  timestamp : Option String
  severity : Option String
  log_name : Option String
  resource_type : Option String
  resource_labels : List (String × String)
  text_payload : Option String
  json_payload : Option (List (String × Json))
  labels : List (String × String)
  insert_id : Option String

/-- The per-entry normalization of `fetch_logs` (logging_client.py lines
128–137) together with `_format_resource` (lines 192–207): `severity` is
`entry.severity` verbatim (`None` included); the payload is classified as
text exactly when it is a string and as structured exactly when it is a
dict. -/
def normalize_entry (e : RawLogEntry) : LogEntry :=
  { timestamp := e.timestamp
    severity := e.severity
    log_name := e.log_name
    resource_type := if e.has_resource then e.resource_type else none
    resource_labels := if e.has_resource then e.resource_labels else []
    text_payload :=
      match e.payload with
      | some (Json.str s) => some s
      | _ => none
    json_payload :=
      match e.payload with
      | some (Json.obj d) => some d
      | _ => none
    labels := e.labels
    insert_id := e.insert_id }

/-- The key used by the severity tally: `log.get("severity", "UNKNOWN")`.
Every dict built by `fetch_logs` carries the key `"severity"`, so `get`
returns its stored value — which is Python `None` when the raw entry had no
severity; the `"UNKNOWN"` default of `get` is unreachable on this path.
A key of `none` is the Python `None` dict key. -/
def severityKey (e : LogEntry) : Option String := e.severity

/-- One `stats["by_severity"][severity] = ... + 1` update on an
insertion-ordered counter dict: bump an existing key in place, else append
the new key with count 1. -/
def tallyInsert (m : List (Option String × Nat)) (k : Option String) :
    List (Option String × Nat) :=
  match m with
  | [] => [(k, 1)]
  | (k', v) :: rest =>
    if k' = k then (k', v + 1) :: rest else (k', v) :: tallyInsert rest k

/-- The statistics record (analysis_service.py lines 167–171). -/
structure Stats where
  total_count : Nat
  by_severity : List (Option String × Nat)
  time_range_hours : Int
deriving DecidableEq

/-- `AnalysisService._calculate_statistics` (analysis_service.py lines
153–177). -/
def calculate_statistics (logs : List LogEntry) (hours_back : Int) : Stats :=
  { total_count := logs.length
    by_severity := logs.foldl (fun m log => tallyInsert m (severityKey log)) []
    time_range_hours := hours_back }

/-- First occurrences of a list's elements, skipping those already seen,
used to state insertion-order stability of the tally keys. -/
def firstOccFrom (seen : List (Option String)) :
    List (Option String) → List (Option String)
  | [] => []
  | a :: rest =>
    if a ∈ seen then firstOccFrom seen rest
    else a :: firstOccFrom (seen ++ [a]) rest

/-- Python truthiness of an optional string (`if filter_query:` /
`elif self.settings.gcp_log_filter:`): `None` and `""` are falsy. -/
def pyTruthy (s : Option String) : Bool :=
  match s with
  | none => false
  | some s => !(s == (""))

/-- The filter combination of `GCPLoggingClient.fetch_logs`
(logging_client.py lines 98–108): the timestamp bound, AND-combined with
the request filter when truthy, else with the configured default filter
when truthy, else alone. -/
def full_filter (timestamp_filter : String) (filter_query : Option String)
    (gcp_log_filter : String) : String :=
  if pyTruthy filter_query then
    timestamp_filter ++ (" AND ") ++ filter_query.getD ("")
  else if pyTruthy (some gcp_log_filter) then
    timestamp_filter ++ (" AND ") ++ gcp_log_filter
  else
    timestamp_filter

/-- The fixed filter of `GCPLoggingClient.fetch_error_logs`
(logging_client.py line 172). -/
def error_filter : String := "severity >= \"WARNING\""

/-- The effective filter of `fetch_error_logs`: it calls `fetch_logs` with
`filter_query = error_filter`. -/
def fetch_error_logs_filter (timestamp_filter : String)
    (gcp_log_filter : String) : String :=
  full_filter timestamp_filter (some error_filter) gcp_log_filter

/-- A Python exception below the orchestrator boundary: its class name
(`GCPIntegrationError`, `LLMError`, `ValidationError`, ...), message and
machine-readable code. -/
structure AppError where
  cls : String
  message : String
  code : String
deriving DecidableEq

/-- The orchestrator-level wrapper raised by `AnalysisService.analyze_logs`
(analysis_service.py lines 126–130): a `LogAnalysisError` with code
`"ANALYSIS_ERROR"`, carrying the analysis identifier and the original
exception (`from e` plus the `error` context entry). -/
structure AnalysisFailedError where
  code : String
  analysis_id : String
  cause : AppError
deriving DecidableEq

/-- `LogStatistics` (schemas/analysis.py lines 38–47); pydantic requires
string keys in `by_severity`. -/
structure LogStatisticsR where
  total_logs : Nat
  by_severity : List (String × Nat)
  time_range_hours : Int
  most_common_errors : List String
deriving DecidableEq

/-- `LogAnalysisResponse` (schemas/analysis.py lines 69–86); the run
timestamp is an abstract instant. -/
structure LogAnalysisResponse where
  analysis_id : String
  timestamp : Int
  statistics : LogStatisticsR
  findings : List AnalysisFinding
  summary : String
  document_path : Option String
  recommendations : List String
deriving DecidableEq

/-- `AnalysisService._create_empty_response`
(analysis_service.py lines 211–240). -/
def create_empty_response (analysis_id : String) (timestamp : Int)
    (hours_back : Int) : LogAnalysisResponse :=
  { analysis_id := analysis_id
    timestamp := timestamp
    statistics :=
      { total_logs := 0
        by_severity := []
        time_range_hours := hours_back
        most_common_errors := [] }
    findings := []
    summary := "No logs found in the specified time range."
    document_path := none
    recommendations := ["Check your GCP logging configuration and filters."] }

/-- Iterating `for finding in llm_findings:` requires a list; a non-list
value raises (`TypeError`), surfacing as an exception inside the `try`. -/
def expectList (j : Json) : Except AppError (List Json) :=
  match j with
  | Json.arr xs => Except.ok xs
  | _ => Except.error ⟨"TypeError", "value is not iterable", ""⟩

/-- Pydantic validation of a `str` response field inside the `try`. -/
def expectStr (j : Json) : Except AppError String :=
  match j with
  | Json.str s => Except.ok s
  | _ => Except.error ⟨"ValidationError", "str expected", ""⟩

/-- Pydantic validation of a `list[str]` response field inside the `try`. -/
def expectStrList (j : Json) : Except AppError (List String) :=
  match j with
  | Json.arr xs => xs.mapM expectStr
  | _ => Except.error ⟨"ValidationError", "list of str expected", ""⟩

/-- Pydantic validation of the `dict[str, int]` severity tally: a Python
`None` key is rejected. -/
def expectStrKeys (m : List (Option String × Nat)) :
    Except AppError (List (String × Nat)) :=
  m.mapM (fun p =>
    match p.1 with
    | some s => Except.ok (s, p.2)
    | none => Except.error ⟨"ValidationError", "str key expected", ""⟩)

/-- The body of the `try` block of `AnalysisService.analyze_logs`
(analysis_service.py lines 64–116), with the two injected external
collaborators as parameters: `fetchResult` is the outcome of the log-fetch
step (step 1), `llm` the model step (`LLMService.analyze_logs`, step 3,
returning the parsed dict), `render` the document step
(`DocumentService.generate_document`, step 5, returning the path; it
receives the raw `llm_analysis.get(...)` values the code passes it).
Statistics (step 2) and finding conversion (step 4) are the in-file
functions.  Any exception of any step propagates out of the block. -/
def run_pipeline (analysis_id : String) (timestamp : Int) (hours_back : Int)
    (fetchResult : Except AppError (List LogEntry))
    (llm : List LogEntry → Stats → Except AppError (List (String × Json)))
    (render : String → Int → Stats → List AnalysisFinding → Json → Json →
      Except AppError String) :
    Except AppError LogAnalysisResponse := do
  let logs ← fetchResult
  if logs.isEmpty then
    return create_empty_response analysis_id timestamp hours_back
  let stats := calculate_statistics logs hours_back
  let llmOut ← llm logs stats
  let rawFindings ← expectList (dictGet llmOut ("findings") (Json.arr []))
  let findings := convert_findings rawFindings
  let path ← render analysis_id timestamp stats findings
    (dictGet llmOut ("summary") (Json.str ("")))
    (dictGet llmOut ("recommendations") (Json.arr []))
  let summary ← expectStr (dictGet llmOut ("summary") (Json.str ("")))
  let recommendations ←
    expectStrList (dictGet llmOut ("recommendations") (Json.arr []))
  let mce ←
    expectStrList (dictGet llmOut ("most_common_errors") (Json.arr []))
  let bySev ← expectStrKeys stats.by_severity
  pure
    { analysis_id := analysis_id
      timestamp := timestamp
      statistics :=
        { total_logs := stats.total_count
          by_severity := bySev
          time_range_hours := stats.time_range_hours
          most_common_errors := mce }
      findings := findings
      summary := summary
      document_path := some path
      recommendations := recommendations }

/-- `AnalysisService.analyze_logs` (analysis_service.py lines 36–130): the
whole pipeline runs inside one `try`; any exception is caught once at this
boundary and re-raised as a `LogAnalysisError` with code `"ANALYSIS_ERROR"`,
the analysis identifier, and the original exception as cause. -/
def analyze_logs_orchestrator (analysis_id : String) (timestamp : Int)
    (hours_back : Int)
    (fetchResult : Except AppError (List LogEntry))
    (llm : List LogEntry → Stats → Except AppError (List (String × Json)))
    (render : String → Int → Stats → List AnalysisFinding → Json → Json →
      Except AppError String) :
    Except AnalysisFailedError LogAnalysisResponse :=
  match run_pipeline analysis_id timestamp hours_back fetchResult llm render with
  | Except.ok r => Except.ok r
  | Except.error e => Except.error ⟨"ANALYSIS_ERROR", analysis_id, e⟩

/-- Sum of the counts of a severity tally. -/
def tallySum (m : List (Option String × Nat)) : Nat := (m.map Prod.snd).sum

/-- A log entry carrying only a severity, as the statistics examples use. -/
def mkSevEntry (sev : Option String) : LogEntry :=
  { timestamp := none, severity := sev, log_name := none,
    resource_type := none, resource_labels := [], text_payload := none,
    json_payload := none, labels := [], insert_id := none }

/-- A raw GCP entry whose severity attribute is `None` (severity absent). -/
def rawNoSeverity : RawLogEntry :=
  { timestamp := some ("2024-01-01T00:00:00"), severity := none,
    log_name := some ("projects/p/logs/app"),
    payload := some (Json.str ("boom")),
    resource_type := some ("gce_instance"), resource_labels := [],
    has_resource := true, labels := [], insert_id := some ("id-1") }

/-- A raw model finding that validates: every field present and well typed. -/
def goodRawFinding : Json :=
  Json.obj
    [(("severity"), Json.str ("high")),
     (("title"), Json.str ("DB timeouts")),
     (("description"), Json.str ("Connection pool exhausted")),
     (("affected_logs_count"), Json.num 12),
     (("suggested_fix"), Json.str ("Increase pool size")),
     (("code_example"), Json.str ("pool_size = 20"))]

/-- The `AnalysisFinding` that `goodRawFinding` materializes to. -/
def goodFinding : AnalysisFinding :=
  { severity := Severity.high, title := "DB timeouts",
    description := "Connection pool exhausted", affected_logs_count := 12,
    suggested_fix := "Increase pool size",
    code_example := some ("pool_size = 20") }

/-- A raw model finding whose severity value is outside the closed enum, so
pydantic construction fails. -/
def badRawFinding : Json :=
  Json.obj [(("severity"), Json.str ("URGENT")), (("title"), Json.str ("Bad"))]

/-- A model response body wrapped in a fenced code block carrying a language
tag: the shape `LLMService._parse_llm_response` is written to unwrap. -/
def wrap_fenced (tag : String) (body : PyStr) : PyStr :=
  (("```") ++ tag ++ ("\n")).data ++ body ++ (("\n```")).data

/-- A stand-in for `json.loads` used by the closed counterexamples: it
accepts exactly the object text `{}` (agreeing with the Python decoder on
every string these counterexamples apply it to — `json.loads("{}")` succeeds
and `json.loads` of text carrying a stray language tag raises). -/
def stubLoads : PyStr → Option Json :=
  fun s => if s = (("\x7b\x7d").data) then some (Json.obj []) else none

/-- Claim C5: the effective query filter is the timestamp bound ANDed with
the request filter when one is supplied; otherwise ANDed with the configured
stored default filter when one is configured; otherwise the timestamp bound
alone.  In particular, with both a request filter and a stored default
present, the request filter wins and the stored default is ignored, not
combined.  "Supplied"/"configured" is Python truthiness: a non-`None`,
non-empty string. -/
theorem fetch_filter_precedence (ts df : String) :
    (∀ s : String, s ≠ ("") →
      full_filter ts (some s) df = ts ++ (" AND ") ++ s)
    ∧ (df ≠ ("") → full_filter ts none df = ts ++ (" AND ") ++ df)
    ∧ (df ≠ ("") → full_filter ts (some ("")) df = ts ++ (" AND ") ++ df)
    ∧ full_filter ts none ("") = ts
    ∧ full_filter ts (some ("")) ("") = ts := by
  refine ⟨fun s hs => ?_, fun hd => ?_, fun hd => ?_, ?_, ?_⟩ <;>
    simp [full_filter, pyTruthy, *]

/-- Witness for C5 at concrete inputs: with request filter `"F"` and stored
default `"D"` both present, the effective filter is `"T AND F"`. -/
theorem fetch_filter_precedence_witness :
    full_filter ("T") (some ("F")) ("D") = ("T") ++ (" AND ") ++ ("F") :=
  (fetch_filter_precedence ("T") ("D")).1 ("F") (by decide)

/-- Claim C9: `fetch_error_logs` always passes the fixed filter
`severity >= "WARNING"` as the request filter, so the effective filter is
exactly the timestamp bound ANDed with that fixed filter, and the stored
default filter is ignored whatever it is configured to. -/
theorem fetch_error_logs_filter_fixed (ts df : String) :
    fetch_error_logs_filter ts df = ts ++ (" AND ") ++ error_filter := by
  simp [fetch_error_logs_filter, full_filter, pyTruthy, error_filter]

/-- One tally update adds exactly one to the sum of counts. -/
theorem tallyInsert_sum (m : List (Option String × Nat)) (k : Option String) :
    tallySum (tallyInsert m k) = tallySum m + 1 := by
  induction m with
  | nil => rfl
  | cons p rest ih =>
    obtain ⟨k', v⟩ := p
    by_cases h : k' = k <;> simp [tallyInsert, h, tallySum] at ih ⊢ <;> omega

/-- One tally update bumps an existing key in place and appends a fresh key
at the end. -/
theorem tallyInsert_keys (m : List (Option String × Nat)) (k : Option String) :
    (tallyInsert m k).map Prod.fst =
      if k ∈ m.map Prod.fst then m.map Prod.fst
      else m.map Prod.fst ++ [k] := by
  induction m with
  | nil => simp [tallyInsert]
  | cons p rest ih =>
    obtain ⟨k', v⟩ := p
    by_cases h : k' = k
    · simp [tallyInsert, h]
    · have hne : ¬(k = k') := fun hk => h hk.symm
      simp [tallyInsert, h, ih, hne]
      by_cases hmem : k ∈ rest.map Prod.fst <;> simp [hmem, hne]

/-- The severity tally of `_calculate_statistics`, run from any starting
dict, adds one to the count sum per entry. -/
theorem foldl_tally_sum (logs : List LogEntry)
    (m : List (Option String × Nat)) :
    tallySum (logs.foldl (fun m log => tallyInsert m (severityKey log)) m) =
      tallySum m + logs.length := by
  induction logs generalizing m with
  | nil => simp
  | cons log rest ih =>
    simp [List.foldl_cons, ih, tallyInsert_sum]
    omega

/-- The severity tally of `_calculate_statistics`, run from any starting
dict, lists its keys in first-occurrence order. -/
theorem foldl_tally_keys (logs : List LogEntry)
    (m : List (Option String × Nat)) :
    (logs.foldl (fun m log => tallyInsert m (severityKey log)) m).map Prod.fst =
      m.map Prod.fst ++ firstOccFrom (m.map Prod.fst) (logs.map severityKey) := by
  induction logs generalizing m with
  | nil => simp [firstOccFrom]
  | cons log rest ih =>
    by_cases hmem : severityKey log ∈ m.map Prod.fst
    · simp [List.foldl_cons, ih, firstOccFrom, hmem, tallyInsert_keys]
    · simp [List.foldl_cons, ih, firstOccFrom, hmem, tallyInsert_keys]

/-- Claim C7: for every entry list and `hours_back`, the statistics carry
total = length, a severity tally whose counts sum to the total and whose
keys are exactly the severity values as observed — case-sensitive, no
normalization — in first-occurrence insertion order, and the time window
passed through unchanged; severities `["ERROR","error","ERROR"]` yield the
two distinct keys `ERROR ↦ 2` and `error ↦ 1`. -/
theorem calculate_statistics_spec (logs : List LogEntry) (hours_back : Int) :
    (calculate_statistics logs hours_back).total_count = logs.length
    ∧ tallySum (calculate_statistics logs hours_back).by_severity = logs.length
    ∧ (calculate_statistics logs hours_back).by_severity.map Prod.fst =
        firstOccFrom [] (logs.map severityKey)
    ∧ (calculate_statistics logs hours_back).time_range_hours = hours_back
    ∧ calculate_statistics
        [mkSevEntry (some ("ERROR")), mkSevEntry (some ("error")),
         mkSevEntry (some ("ERROR"))] 5 =
      { total_count := 3,
        by_severity := [(some ("ERROR"), 2), (some ("error"), 1)],
        time_range_hours := 5 } := by
  refine ⟨rfl, ?_, ?_, rfl, by decide⟩
  · simp only [calculate_statistics]
    rw [foldl_tally_sum]
    simp [tallySum]
  · simp [calculate_statistics, foldl_tally_keys]

/-- Claim C8 (code bug): a fetched entry whose raw severity is absent is
normalized with severity `None`, not `"UNKNOWN"`, and the severity tally
then counts it under the Python `None` key — `log.get("severity","UNKNOWN")`
never sees a missing key because `fetch_logs` always stores the key, so its
`"UNKNOWN"` default is dead code on this path. -/
theorem absent_severity_tallied_under_none :
    (normalize_entry rawNoSeverity).severity = none
    ∧ (calculate_statistics [normalize_entry rawNoSeverity] 24).by_severity =
        [(none, 1)]
    ∧ ((none : Option String), 1) ≠ (some ("UNKNOWN"), 1) := by
  refine ⟨rfl, by decide, by decide⟩

/-- Claim C2 counterexample: the claim counts a raw finding with a missing
severity as one that fails validation and is skipped; on the code, a missing
severity is defaulted by `finding.get("severity", "info")` and the empty raw
dict materializes successfully, so a valid entry together with a
missing-severity entry yields two findings, not one. -/
theorem missing_severity_finding_materializes :
    convertOne (Json.obj []) =
      some { severity := Severity.info, title := "Unknown issue",
             description := "", affected_logs_count := 0,
             suggested_fix := "", code_example := none }
    ∧ convert_findings [goodRawFinding, Json.obj []] ≠ [goodFinding]
    ∧ (convert_findings [goodRawFinding, Json.obj []]).length = 2 := by
  refine ⟨by decide, by decide, by decide⟩

/-- Claim C2 (amended): materialization validates each raw finding on its
own and skips exactly the elements whose construction fails (for example a
severity value outside the closed enum — a missing severity is defaulted to
`"info"` and does not fail); surviving findings keep the original relative
order of the non-failing entries and the batch never aborts, so one valid
entry plus one failing entry yields exactly the one materialized finding. -/
theorem convert_findings_skips_failures (pre post : List Json) (g : Json)
    (hg : convertOne g = none) :
    convert_findings (pre ++ g :: post) =
      convert_findings pre ++ convert_findings post
    ∧ convert_findings [goodRawFinding, badRawFinding] = [goodFinding]
    ∧ convert_findings [badRawFinding, goodRawFinding] = [goodFinding] := by
  refine ⟨?_, by decide, by decide⟩
  simp [convert_findings, List.filterMap_append, List.filterMap_cons, hg]

/-- Witness for C2 at concrete inputs: the failing `badRawFinding` in the
middle of a batch is skipped and the rest of the batch proceeds. -/
theorem convert_findings_skips_failures_witness :
    convert_findings ([goodRawFinding] ++ badRawFinding :: [goodRawFinding]) =
      convert_findings [goodRawFinding] ++ convert_findings [goodRawFinding] :=
  (convert_findings_skips_failures [goodRawFinding] [goodRawFinding]
    badRawFinding (by decide)).1

/-- Key absence makes `dict.get` return its default. -/
theorem dictGet_of_hasKey_false (d : List (String × Json)) (k : String)
    (v : Json) (h : hasKey d k = false) : dictGet d k v = v := by
  simp only [hasKey, List.any_eq_false] at h
  have hf : d.find? (fun p => p.1 == k) = none := by
    rw [List.find?_eq_none]
    intro x hx
    have hk := h x hx
    simpa using hk
  simp [dictGet, hf]

/-- Claim C10: a materialized raw finding dict has its absent non-severity
fields filled by the fixed `finding.get` defaults — title `"Unknown issue"`,
description `""`, affected_logs_count `0`, suggested_fix `""`, code_example
`None` — and its severity is one of the five enum values. -/
theorem mkAnalysisFinding_defaults (d : List (String × Json))
    (f : AnalysisFinding) (h : convertOne (Json.obj d) = some f) :
    (hasKey d ("title") = false → f.title = ("Unknown issue"))
    ∧ (hasKey d ("description") = false → f.description = (""))
    ∧ (hasKey d ("affected_logs_count") = false → f.affected_logs_count = 0)
    ∧ (hasKey d ("suggested_fix") = false → f.suggested_fix = (""))
    ∧ (hasKey d ("code_example") = false → f.code_example = none)
    ∧ (f.severity = Severity.critical ∨ f.severity = Severity.high
       ∨ f.severity = Severity.medium ∨ f.severity = Severity.low
       ∨ f.severity = Severity.info) := by
  simp only [convertOne, mkAnalysisFinding, bind, Option.bind_eq_some, pure,
    Option.some.injEq] at h
  obtain ⟨sev, hsev, title, htitle, descr, hdescr, cnt, hcnt, fix, hfix,
    code, hcode, hf⟩ := h
  subst hf
  refine ⟨fun hk => ?_, fun hk => ?_, fun hk => ?_, fun hk => ?_,
    fun hk => ?_, ?_⟩
  · rw [dictGet_of_hasKey_false _ _ _ hk] at htitle
    simp [validateStr] at htitle
    simp [htitle]
  · rw [dictGet_of_hasKey_false _ _ _ hk] at hdescr
    simp [validateStr] at hdescr
    simp [hdescr]
  · rw [dictGet_of_hasKey_false _ _ _ hk] at hcnt
    simp [validateInt] at hcnt
    simp [hcnt]
  · rw [dictGet_of_hasKey_false _ _ _ hk] at hfix
    simp [validateStr] at hfix
    simp [hfix]
  · rw [dictGet_of_hasKey_false _ _ _ hk] at hcode
    simp [validateOptStr] at hcode
    simp [hcode]
  · cases sev <;> simp

/-- Witness for C10: the empty raw dict materializes, and by the theorem its
fields are the fixed defaults. -/
theorem mkAnalysisFinding_defaults_witness :
    (⟨Severity.info, "Unknown issue", "", 0, "", none⟩ : AnalysisFinding).title
        = ("Unknown issue")
    ∧ (⟨Severity.info, "Unknown issue", "", 0, "", none⟩ :
        AnalysisFinding).description = ("")
    ∧ (⟨Severity.info, "Unknown issue", "", 0, "", none⟩ :
        AnalysisFinding).affected_logs_count = 0
    ∧ (⟨Severity.info, "Unknown issue", "", 0, "", none⟩ :
        AnalysisFinding).suggested_fix = ("")
    ∧ (⟨Severity.info, "Unknown issue", "", 0, "", none⟩ :
        AnalysisFinding).code_example = none :=
  ⟨(mkAnalysisFinding_defaults []
      ⟨Severity.info, "Unknown issue", "", 0, "", none⟩ (by decide)).1 rfl,
   (mkAnalysisFinding_defaults []
      ⟨Severity.info, "Unknown issue", "", 0, "", none⟩ (by decide)).2.1 rfl,
   (mkAnalysisFinding_defaults []
      ⟨Severity.info, "Unknown issue", "", 0, "", none⟩ (by decide)).2.2.1 rfl,
   (mkAnalysisFinding_defaults []
      ⟨Severity.info, "Unknown issue", "", 0, "", none⟩ (by decide)).2.2.2.1 rfl,
   (mkAnalysisFinding_defaults []
      ⟨Severity.info, "Unknown issue", "", 0, "", none⟩
      (by decide)).2.2.2.2.1 rfl⟩

/-- Claim C6: a fetch yielding zero entries makes the orchestrator
short-circuit to the fixed empty result — total 0, empty severity map, no
findings, no document path, the fixed summary and single recommendation —
whatever the model and renderer collaborators would do (they are never
consulted: the result is the same constant for every `llm` and `render`). -/
theorem empty_fetch_short_circuits (analysis_id : String) (timestamp : Int)
    (hours_back : Int)
    (llm : List LogEntry → Stats → Except AppError (List (String × Json)))
    (render : String → Int → Stats → List AnalysisFinding → Json → Json →
      Except AppError String) :
    analyze_logs_orchestrator analysis_id timestamp hours_back
        (Except.ok []) llm render =
      Except.ok (create_empty_response analysis_id timestamp hours_back)
    ∧ (create_empty_response analysis_id timestamp
        hours_back).statistics.total_logs = 0
    ∧ (create_empty_response analysis_id timestamp
        hours_back).statistics.by_severity = []
    ∧ (create_empty_response analysis_id timestamp hours_back).findings = []
    ∧ (create_empty_response analysis_id timestamp
        hours_back).document_path = none
    ∧ (create_empty_response analysis_id timestamp hours_back).summary =
        ("No logs found in the specified time range.")
    ∧ (create_empty_response analysis_id timestamp hours_back).recommendations =
        [("Check your GCP logging configuration and filters.")]
    ∧ (create_empty_response analysis_id timestamp
        hours_back).statistics.time_range_hours = hours_back :=
  ⟨rfl, rfl, rfl, rfl, rfl, rfl, rfl, rfl⟩

/-- Claim C3: every exception of every pipeline step surfaces from the
orchestrator as the single wrapper error — code `"ANALYSIS_ERROR"`, the
analysis identifier, and the failing step's exception as cause; in
particular a fetch failure and a model failure each surface wrapped, never
as their lower-level class. -/
theorem orchestrator_wraps_all_failures (analysis_id : String)
    (timestamp : Int) (hours_back : Int)
    (fetchResult : Except AppError (List LogEntry))
    (llm : List LogEntry → Stats → Except AppError (List (String × Json)))
    (render : String → Int → Stats → List AnalysisFinding → Json → Json →
      Except AppError String) :
    (∀ f, analyze_logs_orchestrator analysis_id timestamp hours_back
        fetchResult llm render = Except.error f →
      f.code = ("ANALYSIS_ERROR") ∧ f.analysis_id = analysis_id ∧
      run_pipeline analysis_id timestamp hours_back fetchResult llm render =
        Except.error f.cause)
    ∧ (∀ e, fetchResult = Except.error e →
        analyze_logs_orchestrator analysis_id timestamp hours_back
          fetchResult llm render =
          Except.error ⟨("ANALYSIS_ERROR"), analysis_id, e⟩)
    ∧ (∀ logs e, fetchResult = Except.ok logs → logs.isEmpty = false →
        llm logs (calculate_statistics logs hours_back) = Except.error e →
        analyze_logs_orchestrator analysis_id timestamp hours_back
          fetchResult llm render =
          Except.error ⟨("ANALYSIS_ERROR"), analysis_id, e⟩) := by
  refine ⟨?_, ?_, ?_⟩
  · intro f hf
    unfold analyze_logs_orchestrator at hf
    cases hp : run_pipeline analysis_id timestamp hours_back fetchResult
        llm render with
    | ok r => rw [hp] at hf; cases hf
    | error e => rw [hp] at hf; cases hf; exact ⟨rfl, rfl, rfl⟩
  · intro e he
    subst he
    rfl
  · intro logs e hok hne hllm
    subst hok
    unfold analyze_logs_orchestrator run_pipeline
    simp [Bind.bind, Except.bind, Pure.pure, Except.pure, hne, hllm]

/-- Witness for C3: a concrete fetch failure surfaces as the wrapper error
carrying the analysis identifier and the original exception. -/
theorem orchestrator_wraps_all_failures_witness :
    analyze_logs_orchestrator ("a1") 0 24
        (Except.error ⟨("GCPIntegrationError"), ("boom"),
          ("GCP_LOG_FETCH_ERROR")⟩)
        (fun _ _ => Except.ok []) (fun _ _ _ _ _ _ => Except.ok ("p")) =
      Except.error ⟨("ANALYSIS_ERROR"), ("a1"),
        ⟨("GCPIntegrationError"), ("boom"), ("GCP_LOG_FETCH_ERROR")⟩⟩ :=
  (orchestrator_wraps_all_failures ("a1") 0 24
      (Except.error ⟨("GCPIntegrationError"), ("boom"),
        ("GCP_LOG_FETCH_ERROR")⟩)
      (fun _ _ => Except.ok []) (fun _ _ _ _ _ _ => Except.ok ("p"))).2.1
    ⟨("GCPIntegrationError"), ("boom"), ("GCP_LOG_FETCH_ERROR")⟩ rfl

/-- Stripping a leading whitespace character. -/
theorem pyStrip_cons_ws (c : Char) (l : PyStr) (h : pyWs c = true) :
    pyStrip (c :: l) = pyStrip l := by
  simp [pyStrip, List.dropWhile_cons, h]

/-- Stripping a trailing whitespace character. -/
theorem pyStrip_append_ws (l : PyStr) (c : Char) (h : pyWs c = true) :
    pyStrip (l ++ [c]) = pyStrip l := by
  unfold pyStrip
  rw [List.dropWhile_append]
  by_cases he : (List.dropWhile pyWs l).isEmpty
  · rw [List.isEmpty_iff] at he
    simp [he, List.dropWhile_cons, h]
  · simp only [he, if_false, Bool.false_eq_true]
    simp [List.reverse_append, List.dropWhile_cons, h]

/-- Dropping whitespace never enters a segment that starts clean. -/
theorem dropWhile_append_keep (a y : PyStr) (ha : List.dropWhile pyWs a = a)
    (ha' : a ≠ []) : List.dropWhile pyWs (a ++ y) = a ++ y := by
  rw [List.dropWhile_append, ha]
  cases a with
  | nil => exact absurd rfl ha'
  | cons c l => simp

/-- `strip` keeps a string whose two ends hold no whitespace. -/
theorem pyStrip_keep (a x b : PyStr) (ha : List.dropWhile pyWs a = a)
    (ha' : a ≠ []) (hb : List.dropWhile pyWs b.reverse = b.reverse)
    (hb' : b.reverse ≠ []) :
    pyStrip (a ++ x ++ b) = a ++ x ++ b := by
  unfold pyStrip
  rw [List.append_assoc, dropWhile_append_keep a (x ++ b) ha ha']
  have h2 : (a ++ (x ++ b)).reverse = b.reverse ++ (x.reverse ++ a.reverse) := by
    simp [List.reverse_append, List.append_assoc]
  rw [h2, dropWhile_append_keep b.reverse (x.reverse ++ a.reverse) hb hb']
  simp [List.reverse_append, List.append_assoc]

/-- A list starts with its own prefix. -/
theorem isPrefixOf_append_self (p y : PyStr) : p.isPrefixOf (p ++ y) = true := by
  rw [List.isPrefixOf_iff_prefix]
  exact List.prefix_append p y

/-- The tagged fence marker never matches a text whose first character is
not a backtick. -/
theorem fenceJson_not_prefix (c : Char) (h : (Char.ofNat 96 == c) = false)
    (y : PyStr) : (("```json").data).isPrefixOf (c :: y) = false := by
  have hp : (("```json").data) = Char.ofNat 96 :: (("``json").data) := by decide
  rw [hp]
  show (Char.ofNat 96 == c && (("``json").data).isPrefixOf y) = false
  rw [h]
  rfl

/-- The plain fence marker never matches a text whose first character is
not a backtick. -/
theorem fence_not_prefix (c : Char) (h : (Char.ofNat 96 == c) = false)
    (y : PyStr) : (("```").data).isPrefixOf (c :: y) = false := by
  have hp : (("```").data) = Char.ofNat 96 :: (("``").data) := by decide
  rw [hp]
  show (Char.ofNat 96 == c && (("``").data).isPrefixOf y) = false
  rw [h]
  rfl

/-- Dropping the seven characters of the tagged opening marker. -/
theorem drop7_jsonOpen (y : PyStr) :
    List.drop 7 ((("```json\n").data) ++ y) = ('\n') :: y := by
  rw [List.drop_append_eq_append_drop]
  have h1 : List.drop 7 (("```json\n").data) = [('\n')] := by decide
  have h2 : 7 - (("```json\n").data).length = 0 := by decide
  rw [h1, h2]
  simp

/-- A text ending in a newline-then-fence suffix ends with the fence. -/
theorem endsWith_close (x : PyStr) :
    pyEndsWith (x ++ (("\n```").data)) (("```").data) = true := by
  show (("```").data).reverse.isPrefixOf ((x ++ (("\n```").data)).reverse) = true
  have h2 : (x ++ (("\n```").data)).reverse =
      ((("```").data).reverse) ++ (('\n') :: x.reverse) := by
    have hc : (("\n```").data) = ('\n') :: (("```").data) := by decide
    rw [hc]
    simp
  rw [h2]
  exact isPrefixOf_append_self _ _

/-- Removing the last three characters of a text ending in the
newline-then-fence suffix leaves the text with its newline. -/
theorem dropRight3_close (x : PyStr) :
    pyDropRight (x ++ (("\n```").data)) 3 = x ++ [('\n')] := by
  unfold pyDropRight
  have h2 : (x ++ (("\n```").data)).reverse =
      ((("\n```").data).reverse) ++ x.reverse := by simp
  rw [h2, List.drop_append_eq_append_drop]
  have h3 : List.drop 3 ((("\n```").data).reverse) = [('\n')] := by decide
  have h4 : 3 - ((("\n```").data).reverse).length = 0 := by decide
  rw [h3, h4]
  simp

/-- Fence stripping on a body wrapped in a `json`-tagged fenced block: the
opening marker, its tag, the newlines and the closing marker all go, leaving
the stripped body. -/
theorem extract_json_wrap_json (J : PyStr) :
    extract_json (wrap_fenced ("json") J) = pyStrip J := by
  have hw : wrap_fenced ("json") J =
      (("```json\n").data) ++ (J ++ (("\n```").data)) := by
    have hs : (("```") ++ ("json") ++ ("\n")) = ("```json\n") := rfl
    simp [wrap_fenced, hs, List.append_assoc]
  rw [hw]
  have h1 : pyStrip ((("```json\n").data) ++ (J ++ (("\n```").data))) =
      (("```json\n").data) ++ (J ++ (("\n```").data)) := by
    have := pyStrip_keep (("```json\n").data) J (("\n```").data)
      (by decide) (by decide) (by decide) (by decide)
    simpa [List.append_assoc] using this
  have hc1 : pyStartsWith ((("```json\n").data) ++ (J ++ (("\n```").data)))
      (("```json").data) = true := by
    have hsplit : (("```json\n").data) = (("```json").data) ++ [('\n')] := by
      decide
    rw [pyStartsWith, hsplit, List.append_assoc]
    exact isPrefixOf_append_self _ _
  have hd7 : pyDropLeft ((("```json\n").data) ++ (J ++ (("\n```").data))) 7 =
      ('\n') :: (J ++ (("\n```").data)) := drop7_jsonOpen _
  have hc2 : pyStartsWith (('\n') :: (J ++ (("\n```").data)))
      (("```").data) = false :=
    fence_not_prefix ('\n') (by decide) _
  have hc3 : pyEndsWith (('\n') :: (J ++ (("\n```").data)))
      (("```").data) = true := by
    have hshape : ('\n') :: (J ++ (("\n```").data)) =
        (('\n') :: J) ++ (("\n```").data) := by simp
    rw [hshape]
    exact endsWith_close _
  have hdr : pyDropRight (('\n') :: (J ++ (("\n```").data))) 3 =
      ('\n') :: (J ++ [('\n')]) := by
    have hshape : ('\n') :: (J ++ (("\n```").data)) =
        (('\n') :: J) ++ (("\n```").data) := by simp
    rw [hshape, dropRight3_close]
    simp
  have hfin : pyStrip (('\n') :: (J ++ [('\n')])) = pyStrip J := by
    rw [pyStrip_cons_ws ('\n') _ (by decide)]
    exact pyStrip_append_ws _ _ (by decide)
  simp only [extract_json, h1, hc1, if_true, hd7, hc2, hc3, hdr, hfin,
    Bool.false_eq_true, if_false, if_true]


/-- Fence stripping is the identity on a trimmed JSON object text: it starts
with an opening brace and ends with a closing brace, so no fence marker
matches and no whitespace is stripped. -/
theorem extract_json_braced (M : PyStr) :
    extract_json (('\x7b') :: M ++ [('\x7d')]) = ('\x7b') :: M ++ [('\x7d')] := by
  have hshape : ('\x7b') :: M ++ [('\x7d')] =
      [('\x7b')] ++ M ++ [('\x7d')] := by simp
  have h1 : pyStrip (('\x7b') :: M ++ [('\x7d')]) =
      ('\x7b') :: M ++ [('\x7d')] := by
    rw [hshape]
    exact pyStrip_keep [('\x7b')] M [('\x7d')]
      (by decide) (by decide) (by decide) (by decide)
  have hc1 : pyStartsWith (('\x7b') :: M ++ [('\x7d')])
      (("```json").data) = false :=
    fenceJson_not_prefix ('\x7b') (by decide) _
  have hc2 : pyStartsWith (('\x7b') :: M ++ [('\x7d')])
      (("```").data) = false :=
    fence_not_prefix ('\x7b') (by decide) _
  have hc3 : pyEndsWith (('\x7b') :: M ++ [('\x7d')])
      (("```").data) = false := by
    have hrev : (('\x7b') :: M ++ [('\x7d')]).reverse =
        ('\x7d') :: (M.reverse ++ [('\x7b')]) := by simp
    have hfr : (("```").data).reverse = (("```").data) := by decide
    show (("```").data).reverse.isPrefixOf
        ((('\x7b') :: M ++ [('\x7d')]).reverse) = false
    rw [hfr, hrev]
    exact fence_not_prefix ('\x7d') (by decide) _
  simp only [extract_json, h1, hc1, hc2, hc3, Bool.false_eq_true, if_false]

/-- `strip` is the identity on a braced object text. -/
theorem pyStrip_braced (M : PyStr) :
    pyStrip (('\x7b') :: M ++ [('\x7d')]) = ('\x7b') :: M ++ [('\x7d')] := by
  have hshape : ('\x7b') :: M ++ [('\x7d')] =
      [('\x7b')] ++ M ++ [('\x7d')] := by simp
  rw [hshape]
  exact pyStrip_keep [('\x7b')] M [('\x7d')]
    (by decide) (by decide) (by decide) (by decide)

/-- Claim C4 (amended): a JSON object text wrapped in a fenced code block
whose opening marker carries the language tag `json` — the one tag the code
strips — parses identically to the same text unwrapped, for every decoder
and every object body.  (The original claim quantified over every language
tag; only the `json` tag has this property, see the counterexample.) -/
theorem parse_fenced_json_tag_invariant (json_loads : PyStr → Option Json)
    (M : PyStr) :
    parse_llm_response json_loads
        (wrap_fenced ("json") (('\x7b') :: M ++ [('\x7d')])) =
      parse_llm_response json_loads (('\x7b') :: M ++ [('\x7d')]) := by
  simp only [parse_llm_response, extract_json_wrap_json, extract_json_braced,
    pyStrip_braced]

/-- Claim C4 counterexample: with the language tag `python`, stripping
removes only the bare fence markers, leaving the tag text glued to the
body; the decoder then fails on `python\n{}` and the fallback is returned,
while the unwrapped `{}` parses — so wrapped and unwrapped results differ.
`stubLoads` agrees with `json.loads` on both strings it is applied to here. -/
theorem parse_fenced_other_tag_differs :
    stubLoads (("\x7b\x7d").data) = some (Json.obj [])
    ∧ resultSummary (parse_llm_response stubLoads
        (wrap_fenced ("python") (("\x7b\x7d").data))) =
        some ("Analysis completed but response parsing failed")
    ∧ resultSummary (parse_llm_response stubLoads (("\x7b\x7d").data)) =
        some ("Analysis completed")
    ∧ parse_llm_response stubLoads (wrap_fenced ("python") (("\x7b\x7d").data)) ≠
        parse_llm_response stubLoads (("\x7b\x7d").data) := by
  refine ⟨rfl, by decide, by decide,
    fun h => absurd (congrArg resultSummary h) (by decide)⟩

/-- Claim C1 (amended): whenever the decoder fails on the trimmed,
fence-stripped response text, the parser does not raise: it returns the
fallback result, whose findings are exactly one finding with severity
`info`, the fixed title, affected-count 0, the fixed suggested fix, and a
description equal to the first 1000 characters of the trimmed,
fence-stripped response text (the original claim said the raw response
text; the code truncates the processed text, see the counterexample);
recommendations are the one fixed manual-review entry and
`most_common_errors` is empty. -/
theorem parse_failure_falls_back (json_loads : PyStr → Option Json)
    (response : PyStr) (h : json_loads (extract_json response) = none) :
    parse_llm_response json_loads response =
      some (fallback_response (extract_json response))
    ∧ dictGet (fallback_response (extract_json response)) ("findings")
        Json.null =
      Json.arr [Json.obj
        [(("severity"), Json.str ("info")),
         (("title"), Json.str ("Analysis Result")),
         (("description"),
           Json.str (String.mk (pyTake (extract_json response) 1000))),
         (("affected_logs_count"), Json.num 0),
         (("suggested_fix"), Json.str ("Manual review required"))]]
    ∧ dictGet (fallback_response (extract_json response)) ("recommendations")
        Json.null = Json.arr [Json.str ("Review logs manually")]
    ∧ dictGet (fallback_response (extract_json response))
        ("most_common_errors") Json.null = Json.arr [] := by
  refine ⟨?_, rfl, rfl, rfl⟩
  simp [parse_llm_response, h]

/-- Witness for C1 at a concrete input: the decoder that fails on the
processed text makes the parser return the fallback rather than raise. -/
theorem parse_failure_falls_back_witness :
    parse_llm_response (fun _ => none) (("oops").data) =
      some (fallback_response (extract_json (("oops").data))) :=
  (parse_failure_falls_back (fun _ => none) (("oops").data) rfl).1

/-- Claim C1 counterexample: for the raw response `" notjson"` (leading
space, invalid JSON — the decoder stand-in fails on the processed text
`notjson`, as `json.loads` does), the fallback description is the processed
text `notjson`, not the first 1000 characters of the raw response text,
which are `" notjson"`. -/
theorem fallback_description_not_raw_text :
    resultFirstDescription
        (parse_llm_response (fun _ => none) ((" notjson").data)) =
      some ("notjson")
    ∧ (parse_llm_response (fun _ => none) ((" notjson").data)).isSome = true
    ∧ String.mk (pyTake ((" notjson").data) 1000) = (" notjson")
    ∧ ("notjson" : String) ≠ (" notjson") := by
  refine ⟨by decide, by decide, by decide, by decide⟩
